import Mathlib

/-!
Verification of the ReactPic image editor core (`src/components/ImageContainer.jsx`,
latest revision: the one containing `rotateImageBy90`).

The JavaScript component is shallowly embedded below:
* JS numbers are modelled as rationals (`ℚ`); the sources the claims concern use
  them only for exact-arithmetic-style coordinate computations.
* the React component's mutable state (`imageUrl`, `imageObject`, `strokesRef`,
  `currentStrokeRef`, `crop`, `completedCrop`, `drawEnabled`, ...) becomes an
  explicit `EditorState` record, and each event handler a state-transition
  function;
* the host 2D canvas is modelled at the pixel level by `RawImage`: a width, a
  height, and a pixel-lookup function; `drawImage` under an affine transform is
  modelled by mapping pixel centers through the transform the code installs.
  `ctx.filter` delegates the nine-channel CSS filter to the host renderer, so
  filter application is a parameter `applyFilter : RawImage C → RawImage C`.
-/

namespace ReactPic

/-- A 2D point in CSS pixels, as captured by `getLocalPointerPos`. -/
structure Point where
  x : ℚ
  y : ℚ
  deriving DecidableEq, Repr

/-- A freehand stroke, as built by `handlePointerDown` / `handlePointerMove`:
`{ points: [{x,y}], color, size, eraser }`, points in CSS pixels. -/
structure Stroke where
  points : List Point
  color : String
  size : ℚ
  eraser : Bool
  deriving DecidableEq, Repr

/-- The nine filter channels read by `filterStyle` in `ImageContainer.jsx`. -/
structure FilterState where
  blur : ℚ
  grayScale : ℚ
  brightness : ℚ
  contrast : ℚ
  hueRotate : ℚ
  invert : ℚ
  opacity : ℚ
  saturate : ℚ
  sepia : ℚ
  deriving DecidableEq, Repr

/-- The initial filter values from `App.jsx`'s `useState` call. -/
def initFilters : FilterState :=
  { blur := 0, grayScale := 0, brightness := 100, contrast := 100,
    hueRotate := 3, invert := 0, opacity := 100, saturate := 100, sepia := 0 }

/-- A crop rectangle `{x, y, width, height}` in on-screen CSS pixels, as
produced by the crop widget (`completedCrop`). -/
structure CropRect where
  x : ℚ
  y : ℚ
  width : ℚ
  height : ℚ
  deriving DecidableEq, Repr

/-- A decoded raster: natural pixel dimensions plus a pixel-lookup function.
Models both the `Image()` objects (`imageObject`) and canvas backing stores.
The color type is abstract because no code in the repository inspects
individual channel values. -/
structure RawImage (C : Type) where
  width : ℕ
  height : ℕ
  pixel : ℕ → ℕ → C

/-- JS `a || b` for the non-negative numbers used in the component
(`img.clientWidth || naturalW`, `window.devicePixelRatio || 1`): among
non-negative numbers exactly `0` is falsy. -/
def jsOr (a b : ℚ) : ℚ := if a = 0 then b else a

/-- The scale `scaleX` as computed in `handleDownload`:
`dispW = img.clientWidth || naturalW; scaleX = naturalW / dispW`.
(Also `scaleY`, with the height arguments.) -/
def scaleOf (naturalW clientW : ℚ) : ℚ := naturalW / jsOr clientW naturalW

/-- The width scale `avgScale = (scaleX + scaleY) / 2` from `handleDownload`. -/
def avgScale (sx sy : ℚ) : ℚ := (sx + sy) / 2

/-- A stroke as painted on the export canvas by `handleDownload`'s loop:
re-scaled points, `lineWidth = s.size * avgScale`, composite mode selected
by `s.eraser`, and (for brush strokes) the stroke color. -/
structure ExportedStroke where
  points : List Point
  lineWidth : ℚ
  eraser : Bool
  color : String
  deriving DecidableEq, Repr

/-- One iteration of `handleDownload`'s stroke loop: positions are scaled per
axis (`pts[i].x * scaleX`, `pts[i].y * scaleY`) and the line width by the
average scale (`s.size * avgScale`). -/
def exportStroke1 (sx sy avg : ℚ) (s : Stroke) : ExportedStroke :=
  { points := s.points.map (fun p => ⟨p.x * sx, p.y * sy⟩),
    lineWidth := s.size * avg,
    eraser := s.eraser,
    color := s.color }

/-- The stroke-rescaling part of `handleDownload`: computes `dispW`, `dispH`,
`scaleX`, `scaleY`, `avgScale` exactly as the code does, then maps every
stroke through `exportStroke1`. -/
def exportStrokes (naturalW naturalH clientW clientH : ℚ)
    (strokes : List Stroke) : List ExportedStroke :=
  let sx := scaleOf naturalW clientW
  let sy := scaleOf naturalH clientH
  let avg := avgScale sx sy
  strokes.map (exportStroke1 sx sy avg)

/-- The CSS-to-natural point map of the Coordinate Mapper, as used in
`handleDownload` (`pts[i].x * scaleX`, `pts[i].y * scaleY`). -/
def mapToNatural (sx sy : ℚ) (p : Point) : Point := ⟨p.x * sx, p.y * sy⟩

/-- Modelled from the spec: the inverse map "back using the reciprocal scale"
named by the coordinate round-trip property; the repository has no explicit
inverse mapping, so this follows the spec's words `(1/scaleX, 1/scaleY)`. -/
def mapBackReciprocal (sx sy : ℚ) (p : Point) : Point :=
  ⟨p.x * (1 / sx), p.y * (1 / sy)⟩

/-- The call `ctx.rotate((90 * Math.PI) / 180)`: the canvas rotation
`(x, y) ↦ (x cos θ − y sin θ, x sin θ + y cos θ)` at θ = 90°, where
`cos 90° = 0` and `sin 90° = 1`. -/
def rot90cw (p : ℚ × ℚ) : ℚ × ℚ := (-p.2, p.1)

/-- The complete point transform installed by `rotateImageBy90` before its
`drawImage` call: `drawImage(img, -w/2, -h/2, w, h)` places image point
`(x, y)` at local `(x - w/2, y - h/2)`; `ctx.rotate` then applies `rot90cw`,
and `ctx.translate(canvas.width/2, canvas.height/2)` adds `(h/2, w/2)`
(the rotated canvas is `h` wide and `w` tall). -/
def rotatePointMap (w h : ℚ) (p : ℚ × ℚ) : ℚ × ℚ :=
  let q := rot90cw (p.1 - w / 2, p.2 - h / 2)
  (q.1 + h / 2, q.2 + w / 2)

/-- The raster produced by `rotateImageBy90`'s canvas work: `canvas.width = h`,
`canvas.height = w`, and since `filterStyle` is never empty the branch that
re-draws the image with `tctx.filter = filterStyle` always runs, so the pixels
are those of the host-filtered source. Output pixel `(x, y)` holds the source
pixel whose center `rotatePointMap` sends to this pixel's center (the
center correspondence is proved in the rotate theorem below). -/
def rotateImageBy90 {C : Type} (applyFilter : RawImage C → RawImage C)
    (img : RawImage C) : RawImage C :=
  let filtered := applyFilter img
  { width := img.height,
    height := img.width,
    pixel := fun x y => filtered.pixel y (img.height - 1 - x) }

/-- The raster produced by `handleCrop`'s canvas work, for an image element
whose layout size is `elemW × elemH`: `scaleX = naturalWidth / image.width`,
`scaleY = naturalHeight / image.height`,
`canvas.width = floor(c.width * scaleX * pixelRatio)` (similarly height), and
`drawImage` copies source rect `(c.x*scaleX, c.y*scaleY, c.w*scaleX, c.h*scaleY)`
onto dest rect `(0, 0, c.w*scaleX, c.h*scaleY)` under a `setTransform(dpr,...)`
scale. No `ctx.filter` is set here, so pixels are sampled from the unfiltered
source; device pixel `(x, y)` samples the source pixel containing the image of
its center (nearest sampling models the host's resampling; it is exact in the
1:1 regime the claims instantiate). -/
def cropImage {C : Type} (img : RawImage C) (elemW elemH : ℚ) (c : CropRect)
    (dpr : ℚ) : RawImage C :=
  let sx := (img.width : ℚ) / elemW
  let sy := (img.height : ℚ) / elemH
  { width := (⌊c.width * sx * dpr⌋).toNat,
    height := (⌊c.height * sy * dpr⌋).toNat,
    pixel := fun x y =>
      img.pixel (⌊c.x * sx + ((x : ℚ) + 1 / 2) / dpr⌋).toNat
                (⌊c.y * sy + ((y : ℚ) + 1 / 2) / dpr⌋).toNat }

/-- The component state of `ImageContainer` relevant to the claims: the React
`useState` values plus the two mutable refs that hold the stroke log and the
in-progress stroke, and the `filters` prop owned by `App.jsx`. -/
structure EditorState (C : Type) where
  imageUrl : Option String
  imageObject : Option (RawImage C)
  strokes : List Stroke
  currentStroke : Option Stroke
  crop : Option CropRect
  completedCrop : Option CropRect
  drawEnabled : Bool
  isErasing : Bool
  brushColor : String
  brushSize : ℚ
  filters : FilterState

/-- The initial state of a fresh `ImageContainer` mount. -/
def initState (C : Type) : EditorState C :=
  { imageUrl := none, imageObject := none, strokes := [],
    currentStroke := none, crop := none, completedCrop := none,
    drawEnabled := false, isErasing := false, brushColor := "#ff0000",
    brushSize := 6, filters := initFilters }

/-- The synchronous part of `handleImageUpload`: if a file was selected
(`file = some url`, with `url` the object URL `URL.createObjectURL` returns),
`setImageUrl(newImageUrl)` runs immediately; decode is requested and its
outcome arrives later (`onImageLoad` / `onImageError`). With no file the
handler does nothing. -/
def handleImageUploadStart {C : Type} (st : EditorState C)
    (file : Option String) : EditorState C :=
  match file with
  | none => st
  | some url => { st with imageUrl := some url }

/-- The `image.onload` callback in `handleImageUpload`: install the decoded image object and
clear any previous drawings. -/
def onImageLoad {C : Type} (st : EditorState C) (img : RawImage C) :
    EditorState C :=
  { st with imageObject := some img, strokes := [] }

/-- The `image.onerror` callback in `handleImageUpload`: `console.error` only; no state
field is assigned. -/
def onImageError {C : Type} (st : EditorState C) : EditorState C := st

/-- Handler `handlePointerDown`: inert unless `drawEnabled`; otherwise starts an
in-progress stroke whose point list already holds the initial capture point
(the code pushes `p` right after creating `{ points: [], ... }`). -/
def handlePointerDown {C : Type} (st : EditorState C) (p : Point) :
    EditorState C :=
  if st.drawEnabled then
    { st with currentStroke := some ⟨[p], st.brushColor, st.brushSize, st.isErasing⟩ }
  else st

/-- Handler `handlePointerMove`: inert unless a stroke is in progress; otherwise
appends the capture point to it. -/
def handlePointerMove {C : Type} (st : EditorState C) (p : Point) :
    EditorState C :=
  match st.currentStroke with
  | none => st
  | some s => { st with currentStroke := some ⟨s.points ++ [p], s.color, s.size, s.eraser⟩ }

/-- Handler `handlePointerUp` (also bound to pointer-cancel): inert unless a stroke is
in progress; otherwise pushes it onto the stroke log and clears the
in-progress slot. -/
def handlePointerUp {C : Type} (st : EditorState C) : EditorState C :=
  match st.currentStroke with
  | none => st
  | some s => { st with strokes := st.strokes ++ [s], currentStroke := none }

/-- Handler `handleUndo`: `strokesRef.current.pop()` removes the last element of the
log (and returns `undefined` on an empty array without throwing), then
repaints. -/
def handleUndo {C : Type} (st : EditorState C) : EditorState C :=
  { st with strokes := st.strokes.dropLast }

/-- Handler `handleClearDraw`: empties the stroke log, then repaints. -/
def handleClearDraw {C : Type} (st : EditorState C) : EditorState C :=
  { st with strokes := [] }

/-- The completed `handleCrop` operation (including the cropped image's
`onload`): guarded by `if (!c || !image) return` (the mounted `<img>` element
and the loaded image object share the same pixel source, so presence of the
element is modelled by presence of `imageObject`); on success it installs the
cropped raster and its data URL (`enc` models `canvas.toDataURL`), resets both
crop states, and clears the drawings. `elemW`, `elemH` are the element's
layout size and `dpr` the device pixel ratio, both read from the host. -/
def handleCropState {C : Type} (st : EditorState C) (elemW elemH dpr : ℚ)
    (enc : RawImage C → String) : EditorState C :=
  match st.completedCrop, st.imageObject with
  | some c, some img =>
      let cropped := cropImage img elemW elemH c dpr
      { st with
        imageObject := some cropped
        imageUrl := some (enc cropped)
        crop := none
        completedCrop := none
        strokes := [] }
  | _, _ => st

/-- The completed `rotateImageBy90` operation (including the rotated image's
`onload`): guarded by `if (!img || !imageUrl) return`; on success it installs
the rotated, filter-baked raster and its data URL, resets both crop states,
and clears the drawings. -/
def rotateState {C : Type} (st : EditorState C)
    (applyFilter : RawImage C → RawImage C) (enc : RawImage C → String) :
    EditorState C :=
  match st.imageObject, st.imageUrl with
  | some img, some _ =>
      let rotated := rotateImageBy90 applyFilter img
      { st with
        imageObject := some rotated
        imageUrl := some (enc rotated)
        crop := none
        completedCrop := none
        strokes := [] }
  | _, _ => st

/-- What `handleDownload` hands to the blob sink: the export canvas dimensions,
the filter snapshot set via `ctx.filter`, the rescaled strokes, and the fixed
filename passed to `saveAs`. -/
structure DownloadOut where
  width : ℕ
  height : ℕ
  filter : FilterState
  strokes : List ExportedStroke
  filename : String

/-- Handler `handleDownload`: returns the (unchanged) state it leaves behind together
with the produced export, `none` when the `if (!img || !imageUrl) return`
guard fires. `clientW`, `clientH` are the element's `clientWidth` /
`clientHeight` read from the host. The handler assigns no component state. -/
def handleDownloadState {C : Type} (st : EditorState C) (clientW clientH : ℚ) :
    EditorState C × Option DownloadOut :=
  match st.imageObject, st.imageUrl with
  | some img, some _ =>
      (st, some ⟨img.width, img.height, st.filters,
        exportStrokes (img.width : ℚ) (img.height : ℚ) clientW clientH st.strokes,
        "edited-image.png"⟩)
  | _, _ => (st, none)

/-- The discrete UI events that drive the editing session. Host-measured
quantities (layout sizes, device pixel ratio) and host-provided functions
(filter rendering, data-URL encoding) travel with the event that reads them. -/
inductive PEvent (C : Type) where
  | pointerDown (p : Point)
  | pointerMove (p : Point)
  | pointerUp
  | undo
  | clear
  | toggleDraw
  | toggleEraser
  | setColor (c : String)
  | setSize (q : ℚ)
  | setFilters (fs : FilterState)
  | uploadStart (file : Option String)
  | uploadLoad (img : RawImage C)
  | uploadError
  | cropApply (elemW elemH dpr : ℚ) (enc : RawImage C → String)
  | rotate (applyFilter : RawImage C → RawImage C) (enc : RawImage C → String)
  | download (clientW clientH : ℚ)

/-- One step of the editing session: dispatch an event to its handler. -/
def step {C : Type} (st : EditorState C) (e : PEvent C) : EditorState C :=
  match e with
  | .pointerDown p => handlePointerDown st p
  | .pointerMove p => handlePointerMove st p
  | .pointerUp => handlePointerUp st
  | .undo => handleUndo st
  | .clear => handleClearDraw st
  | .toggleDraw => { st with drawEnabled := !st.drawEnabled }
  | .toggleEraser => { st with isErasing := !st.isErasing }
  | .setColor c => { st with brushColor := c }
  | .setSize q => { st with brushSize := q }
  | .setFilters fs => { st with filters := fs }
  | .uploadStart file => handleImageUploadStart st file
  | .uploadLoad img => onImageLoad st img
  | .uploadError => onImageError st
  | .cropApply w h dpr enc => handleCropState st w h dpr enc
  | .rotate f enc => rotateState st f enc
  | .download w h => (handleDownloadState st w h).1

/-- The stroke-log invariant behind the export loop's non-emptiness guard:
every finalized stroke, and the in-progress stroke when present, has at least
one point. -/
def StrokesNonempty {C : Type} (st : EditorState C) : Prop :=
  (∀ s ∈ st.strokes, s.points ≠ []) ∧
  (∀ s, st.currentStroke = some s → s.points ≠ [])

/-! ## Theorems -/

/-- Casting the natural-number index arithmetic of `rotateImageBy90` into `ℚ`. -/
theorem cast_sub_one_sub (h x : ℕ) (hx : x < h) :
    ((h - 1 - x : ℕ) : ℚ) = (h : ℚ) - 1 - (x : ℚ) := by
  have h1 : h - 1 - x = h - (1 + x) := by omega
  have h2 : 1 + x ≤ h := by omega
  rw [h1, Nat.cast_sub h2]
  push_cast
  ring

/-- C1: every stroke point `(x, y)` captured in CSS pixels is exported at
natural position `(x * scaleX, y * scaleY)` and the exported line width is the
CSS-pixel size times `avgScale = (scaleX + scaleY) / 2`; in particular a
stroke at `(10, 10)` of width 6 under `scaleX = scaleY = 2` exports at
`(20, 20)` with width 12. -/
theorem c1_export_scale_consistency (nw nh cw ch : ℚ) (hcw : cw ≠ 0)
    (hch : ch ≠ 0) (s : Stroke) :
    exportStrokes nw nh cw ch [s] =
      [exportStroke1 (nw / cw) (nh / ch) ((nw / cw + nh / ch) / 2) s] ∧
    (exportStroke1 (nw / cw) (nh / ch) ((nw / cw + nh / ch) / 2) s).points =
      s.points.map (mapToNatural (nw / cw) (nh / ch)) ∧
    (exportStroke1 (nw / cw) (nh / ch) ((nw / cw + nh / ch) / 2) s).lineWidth =
      s.size * ((nw / cw + nh / ch) / 2) ∧
    (nw = 2 * cw → nh = 2 * ch →
      exportStrokes nw nh cw ch [⟨[⟨10, 10⟩], s.color, 6, s.eraser⟩] =
        [⟨[⟨20, 20⟩], 12, s.eraser, s.color⟩]) := by
  refine ⟨?_, ?_, rfl, ?_⟩
  · simp [exportStrokes, scaleOf, avgScale, jsOr, hcw, hch]
  · simp [exportStroke1, mapToNatural]
  · intro h2w h2h
    subst h2w h2h
    simp only [exportStrokes, exportStroke1, scaleOf, avgScale, jsOr, hcw, hch,
      if_neg, List.map_cons, List.map_nil]
    have hx : (2 * cw) / cw = 2 := by field_simp
    have hy : (2 * ch) / ch = 2 := by field_simp
    simp [hx, hy, Point.mk.injEq]
    norm_num

/-- Witness for C1 at natural 800×600 displayed at 400×300. -/
theorem c1_export_scale_consistency_witness :
    exportStrokes 800 600 400 300 [⟨[⟨10, 10⟩], "#ff0000", 6, false⟩] =
      [⟨[⟨20, 20⟩], 12, false, "#ff0000"⟩] :=
  (c1_export_scale_consistency 800 600 400 300 (by norm_num) (by norm_num)
    ⟨[⟨10, 10⟩], "#ff0000", 6, false⟩).2.2.2 (by norm_num) (by norm_num)

/-- C5: `handleUndo` drops exactly the most recent finalized stroke (a log of
`n > 0` strokes becomes `n - 1`), and on an empty log both `handleUndo` and
`handleClearDraw` are no-ops on the log. -/
theorem c5_undo_clear_law {C : Type} (st : EditorState C) :
    (∀ l s, st.strokes = l ++ [s] → (handleUndo st).strokes = l) ∧
    (0 < st.strokes.length →
      (handleUndo st).strokes.length = st.strokes.length - 1) ∧
    (st.strokes = [] →
      (handleUndo st).strokes = [] ∧ (handleClearDraw st).strokes = []) := by
  refine ⟨?_, ?_, ?_⟩
  · intro l s h
    simp [handleUndo, h]
  · intro _
    simp [handleUndo, List.length_dropLast]
  · intro h
    simp [handleUndo, handleClearDraw, h]

/-- Witness for C5: a two-stroke log undoes to its first stroke; the empty
log is a fixed point of undo and clear. -/
theorem c5_undo_clear_law_witness :
    (handleUndo { initState ℕ with
      strokes := [⟨[⟨1, 1⟩], "#ff0000", 6, false⟩,
                  ⟨[⟨2, 2⟩], "#00ff00", 3, true⟩] }).strokes =
        [⟨[⟨1, 1⟩], "#ff0000", 6, false⟩] ∧
    (handleUndo (initState ℕ)).strokes = [] ∧
    (handleClearDraw (initState ℕ)).strokes = [] := by
  refine ⟨?_, ?_, ?_⟩
  · exact (c5_undo_clear_law _).1 [⟨[⟨1, 1⟩], "#ff0000", 6, false⟩]
      ⟨[⟨2, 2⟩], "#00ff00", 3, true⟩ rfl
  · exact ((c5_undo_clear_law (initState ℕ)).2.2 rfl).1
  · exact ((c5_undo_clear_law (initState ℕ)).2.2 rfl).2

/-- Counterexample to C6 as stated: at natural width 0 (quantified over by the
claim's "for every natural size") with displayed width 0, the computed scale
is `0 / (0 || 0)`, which is not 1 (the rational model yields 0; the host
division yields NaN). -/
theorem c6_scale_guard_counterexample : scaleOf 0 0 ≠ 1 := by
  norm_num [scaleOf, jsOr]

/-- C6 amended: for every positive natural size (which every decoded raster
has), a displayed size of 0 makes the effective scale 1, and otherwise the
scale is `natural / displayed`. -/
theorem c6_scale_guard_amended (nw cw : ℚ) (hnw : nw ≠ 0) :
    (cw = 0 → scaleOf nw cw = 1) ∧ (cw ≠ 0 → scaleOf nw cw = nw / cw) := by
  constructor
  · intro h
    simp [scaleOf, jsOr, h, div_self hnw]
  · intro h
    simp [scaleOf, jsOr, h]

/-- Witness for C6 amended: natural 2 displayed 0 gives scale 1; natural 3
displayed 2 gives scale 3/2. -/
theorem c6_scale_guard_witness : scaleOf 2 0 = 1 ∧ scaleOf 3 2 = 3 / 2 :=
  ⟨(c6_scale_guard_amended 2 0 (by norm_num)).1 rfl,
   (c6_scale_guard_amended 3 2 (by norm_num)).2 (by norm_num)⟩

/-- Counterexample to C8 as stated: with displayed size 1×1 (non-zero, as the
claim requires) but natural size 0×0 (the claim quantifies over "every natural
size"), the scale is 0 and the reciprocal-scale round trip sends `(1, 1)` to
`(0, 0)`, not back to `(1, 1)`. -/
theorem c8_roundtrip_counterexample :
    mapBackReciprocal (scaleOf 0 1) (scaleOf 0 1)
      (mapToNatural (scaleOf 0 1) (scaleOf 0 1) ⟨1, 1⟩) ≠ (⟨1, 1⟩ : Point) := by
  norm_num [mapBackReciprocal, mapToNatural, scaleOf, jsOr, Point.mk.injEq]

/-- C8 amended: for every displayed rectangle with non-zero width and height
and every positive natural size, mapping a CSS point to natural space by
`(x * scaleX, y * scaleY)` and back with the reciprocal scales returns the
original point exactly over rational arithmetic. -/
theorem c8_roundtrip_amended (nw nh cw ch : ℚ) (hnw : nw ≠ 0) (hnh : nh ≠ 0)
    (hcw : cw ≠ 0) (hch : ch ≠ 0) (p : Point) :
    mapBackReciprocal (scaleOf nw cw) (scaleOf nh ch)
      (mapToNatural (scaleOf nw cw) (scaleOf nh ch) p) = p := by
  have h1 : scaleOf nw cw = nw / cw := by simp [scaleOf, jsOr, hcw]
  have h2 : scaleOf nh ch = nh / ch := by simp [scaleOf, jsOr, hch]
  obtain ⟨px, py⟩ := p
  have hsx : nw / cw ≠ 0 := div_ne_zero hnw hcw
  have hsy : nh / ch ≠ 0 := div_ne_zero hnh hch
  simp [mapBackReciprocal, mapToNatural, h1, h2, Point.mk.injEq]
  constructor <;> field_simp

/-- Witness for C8 amended: natural 800×600, displayed 400×300, point
`(10, 10)` round-trips. -/
theorem c8_roundtrip_witness :
    mapBackReciprocal (scaleOf 800 400) (scaleOf 600 300)
      (mapToNatural (scaleOf 800 400) (scaleOf 600 300) ⟨10, 10⟩) =
      (⟨10, 10⟩ : Point) :=
  c8_roundtrip_amended 800 600 400 300 (by norm_num) (by norm_num)
    (by norm_num) (by norm_num) ⟨10, 10⟩

/-- C10: `handleDownload` is read-only with respect to the editing session:
the state after export equals the state before it (so the working image,
stroke log, crop selections, brush settings and filters are all untouched),
and repeating the export yields the identical result. -/
theorem c10_download_readonly {C : Type} (st : EditorState C) (cw ch : ℚ) :
    (handleDownloadState st cw ch).1 = st ∧
    handleDownloadState (handleDownloadState st cw ch).1 cw ch =
      handleDownloadState st cw ch ∧
    step st (.download cw ch) = st := by
  have h1 : (handleDownloadState st cw ch).1 = st := by
    rcases hio : st.imageObject with _ | img <;>
      rcases hiu : st.imageUrl with _ | url <;>
        simp [handleDownloadState, hio, hiu]
  exact ⟨h1, by rw [h1], h1⟩

/-- Counterexample to C4 as stated: the upload handler calls
`setImageUrl(newImageUrl)` synchronously, before the decode outcome is known,
and `onerror` does not revert it — so after a failed upload the displayed
image source differs from the one before the upload. -/
theorem c4_upload_counterexample :
    (onImageError (handleImageUploadStart
        { initState ℕ with imageUrl := some "blob:prev" }
        (some "blob:new"))).imageUrl ≠
      ({ initState ℕ with imageUrl := some "blob:prev" } :
        EditorState ℕ).imageUrl := by
  simp [onImageError, handleImageUploadStart]

/-- C4 amended: on a decode failure the failure is reported by logging only
and the WorkingImage (`imageObject`), the stroke log, the in-progress stroke,
both crop selections and the filters are exactly as before the upload — but
the displayed image source has already been replaced by the new object URL
during the synchronous part of the handler and is not restored. With no file
selected the handler changes nothing. -/
theorem c4_upload_failure_amended {C : Type} (st : EditorState C)
    (url : String) :
    (onImageError (handleImageUploadStart st (some url))).imageObject =
      st.imageObject ∧
    (onImageError (handleImageUploadStart st (some url))).strokes =
      st.strokes ∧
    (onImageError (handleImageUploadStart st (some url))).currentStroke =
      st.currentStroke ∧
    (onImageError (handleImageUploadStart st (some url))).crop = st.crop ∧
    (onImageError (handleImageUploadStart st (some url))).completedCrop =
      st.completedCrop ∧
    (onImageError (handleImageUploadStart st (some url))).filters =
      st.filters ∧
    (onImageError (handleImageUploadStart st (some url))).imageUrl =
      some url ∧
    onImageError (handleImageUploadStart st none) = st := by
  simp [onImageError, handleImageUploadStart]

/-- C2: the 90-degree rotate operation swaps the natural dimensions (W×H
becomes H×W) and output pixel `(x, y)` holds source pixel
`(y, rotatedWidth − 1 − x)` of the filter-baked image: the transform the code
installs (`translate` then `rotate(90°)` then the `drawImage` offset) maps the
center of that source pixel exactly onto the center of output pixel `(x, y)`.
A 400×300 image becomes 300×400. -/
theorem c2_rotate_ninety {C : Type} (F : RawImage C → RawImage C)
    (img : RawImage C) :
    (rotateImageBy90 F img).width = img.height ∧
    (rotateImageBy90 F img).height = img.width ∧
    (∀ x y : ℕ, x < img.height → y < img.width →
      (rotateImageBy90 F img).pixel x y =
        (F img).pixel y (img.height - 1 - x) ∧
      rotatePointMap (img.width : ℚ) (img.height : ℚ)
          ((y : ℚ) + 1 / 2, ((img.height - 1 - x : ℕ) : ℚ) + 1 / 2) =
        ((x : ℚ) + 1 / 2, (y : ℚ) + 1 / 2)) ∧
    (img.width = 400 → img.height = 300 →
      (rotateImageBy90 F img).width = 300 ∧
      (rotateImageBy90 F img).height = 400) := by
  refine ⟨rfl, rfl, ?_, ?_⟩
  · intro x y hx hy
    refine ⟨rfl, ?_⟩
    rw [cast_sub_one_sub _ _ hx]
    simp [rotatePointMap, rot90cw, Prod.ext_iff]
    all_goals ring
  · intro h1 h2
    simp [rotateImageBy90, h1, h2]

/-- Witness for C2 on a concrete 400×300 raster: dimensions become 300×400 and
the source pixel center for output pixel `(5, 7)` maps onto that pixel's
center. -/
theorem c2_rotate_ninety_witness :
    (rotateImageBy90 (fun r => r)
      (⟨400, 300, fun i j => i + j⟩ : RawImage ℕ)).width = 300 ∧
    (rotateImageBy90 (fun r => r)
      (⟨400, 300, fun i j => i + j⟩ : RawImage ℕ)).height = 400 ∧
    rotatePointMap (400 : ℚ) (300 : ℚ)
        ((7 : ℚ) + 1 / 2, ((300 - 1 - 5 : ℕ) : ℚ) + 1 / 2) =
      ((5 : ℚ) + 1 / 2, (7 : ℚ) + 1 / 2) := by
  have h := c2_rotate_ninety (fun r => r)
    (⟨400, 300, fun i j => i + j⟩ : RawImage ℕ)
  exact ⟨(h.2.2.2 rfl rfl).1, (h.2.2.2 rfl rfl).2,
    (h.2.2.1 5 7 (by norm_num) (by norm_num)).2⟩

/-- C3: completing either destructive operation (apply-crop or rotate) leaves
the stroke log empty and both the active and the completed crop selection
cleared, whatever the prior state held. -/
theorem c3_destructive_invalidation {C : Type} (st : EditorState C)
    (elemW elemH dpr : ℚ) (e1 e2 : RawImage C → String)
    (F : RawImage C → RawImage C) (img : RawImage C)
    (himg : st.imageObject = some img) :
    (∀ c, st.completedCrop = some c →
      (handleCropState st elemW elemH dpr e1).strokes = [] ∧
      (handleCropState st elemW elemH dpr e1).crop = none ∧
      (handleCropState st elemW elemH dpr e1).completedCrop = none) ∧
    (∀ u, st.imageUrl = some u →
      (rotateState st F e2).strokes = [] ∧
      (rotateState st F e2).crop = none ∧
      (rotateState st F e2).completedCrop = none) := by
  constructor
  · intro c hc
    simp [handleCropState, hc, himg]
  · intro u hu
    simp [rotateState, himg, hu]

/-- Witness for C3: a state with one stroke and an active and completed crop
selection loses all three under apply-crop and under rotate. -/
theorem c3_destructive_invalidation_witness :
    ((handleCropState { initState ℕ with
        imageObject := some ⟨4, 4, fun i j => i + j⟩
        imageUrl := some "blob:u"
        crop := some ⟨0, 0, 1, 1⟩
        completedCrop := some ⟨0, 0, 2, 2⟩
        strokes := [⟨[⟨1, 1⟩], "#ff0000", 6, false⟩] } 4 4 1
        (fun _ => "data:cropped")).strokes = [] ∧
      (handleCropState { initState ℕ with
        imageObject := some ⟨4, 4, fun i j => i + j⟩
        imageUrl := some "blob:u"
        crop := some ⟨0, 0, 1, 1⟩
        completedCrop := some ⟨0, 0, 2, 2⟩
        strokes := [⟨[⟨1, 1⟩], "#ff0000", 6, false⟩] } 4 4 1
        (fun _ => "data:cropped")).completedCrop = none) ∧
    ((rotateState { initState ℕ with
        imageObject := some ⟨4, 4, fun i j => i + j⟩
        imageUrl := some "blob:u"
        crop := some ⟨0, 0, 1, 1⟩
        completedCrop := some ⟨0, 0, 2, 2⟩
        strokes := [⟨[⟨1, 1⟩], "#ff0000", 6, false⟩] }
        (fun r => r) (fun _ => "data:rotated")).strokes = [] ∧
      (rotateState { initState ℕ with
        imageObject := some ⟨4, 4, fun i j => i + j⟩
        imageUrl := some "blob:u"
        crop := some ⟨0, 0, 1, 1⟩
        completedCrop := some ⟨0, 0, 2, 2⟩
        strokes := [⟨[⟨1, 1⟩], "#ff0000", 6, false⟩] }
        (fun r => r) (fun _ => "data:rotated")).crop = none) := by
  have h := c3_destructive_invalidation (C := ℕ) { initState ℕ with
      imageObject := some ⟨4, 4, fun i j => i + j⟩
      imageUrl := some "blob:u"
      crop := some ⟨0, 0, 1, 1⟩
      completedCrop := some ⟨0, 0, 2, 2⟩
      strokes := [⟨[⟨1, 1⟩], "#ff0000", 6, false⟩] }
    4 4 1 (fun _ => "data:cropped") (fun _ => "data:rotated")
    (fun r => r) ⟨4, 4, fun i j => i + j⟩ rfl
  exact ⟨⟨(h.1 ⟨0, 0, 2, 2⟩ rfl).1, (h.1 ⟨0, 0, 2, 2⟩ rfl).2.2⟩,
    ⟨(h.2 "blob:u" rfl).1, (h.2 "blob:u" rfl).2.1⟩⟩

/-- C7: the crop operation copies pixels of the working image itself (no
`ctx.filter` is set in `handleCrop`), while rotate bakes the filtered pixels
into the replacement image; with a 1:1 displayed size and device pixel ratio
1, crop rectangle `{x:0, y:0, width:200, height:150}` on a 400×300 image
yields a 200×150 image that copies the sub-rectangle exactly. -/
theorem c7_crop_rotate_asymmetry {C : Type} (F : RawImage C → RawImage C)
    (img : RawImage C) :
    (∀ x y : ℕ, (rotateImageBy90 F img).pixel x y =
      (F img).pixel y (img.height - 1 - x)) ∧
    (∀ (elemW elemH dpr : ℚ) (c : CropRect) (x y : ℕ),
      (cropImage img elemW elemH c dpr).pixel x y =
        img.pixel
          (⌊c.x * ((img.width : ℚ) / elemW) + ((x : ℚ) + 1 / 2) / dpr⌋).toNat
          (⌊c.y * ((img.height : ℚ) / elemH) + ((y : ℚ) + 1 / 2) / dpr⌋).toNat) ∧
    (img.width = 400 → img.height = 300 →
      (cropImage img 400 300 ⟨0, 0, 200, 150⟩ 1).width = 200 ∧
      (cropImage img 400 300 ⟨0, 0, 200, 150⟩ 1).height = 150 ∧
      ∀ x y : ℕ, (cropImage img 400 300 ⟨0, 0, 200, 150⟩ 1).pixel x y =
        img.pixel x y) := by
  refine ⟨fun x y => rfl, fun _ _ _ _ _ _ => rfl, ?_⟩
  intro h1 h2
  refine ⟨?_, ?_, ?_⟩
  · simp [cropImage, h1]
  · simp [cropImage, h2]
  · intro x y
    have hhalf : ⌊(2⁻¹ : ℚ)⌋ = 0 := by norm_num
    simp [cropImage, h1, h2, hhalf]

/-- Witness for C7 on a concrete 400×300 raster and a pixel-incrementing
filter: rotate reads the filtered pixel, crop reads the raw pixel. -/
theorem c7_crop_rotate_asymmetry_witness :
    (rotateImageBy90 (fun r => ⟨r.width, r.height, fun i j => r.pixel i j + 1⟩)
      (⟨400, 300, fun i j => 1000 * i + j⟩ : RawImage ℕ)).pixel 2 3 = 3298 ∧
    (cropImage (⟨400, 300, fun i j => 1000 * i + j⟩ : RawImage ℕ)
      400 300 ⟨0, 0, 200, 150⟩ 1).width = 200 ∧
    (cropImage (⟨400, 300, fun i j => 1000 * i + j⟩ : RawImage ℕ)
      400 300 ⟨0, 0, 200, 150⟩ 1).pixel 5 7 = 5007 := by
  have h := c7_crop_rotate_asymmetry
    (fun r => ⟨r.width, r.height, fun i j => r.pixel i j + 1⟩)
    (⟨400, 300, fun i j => 1000 * i + j⟩ : RawImage ℕ)
  refine ⟨?_, (h.2.2 rfl rfl).1, ?_⟩
  · rw [h.1 2 3]
    rfl
  · rw [(h.2.2 rfl rfl).2.2 5 7]

/-- Every event handler preserves the stroke-log invariant. -/
theorem strokesNonempty_step {C : Type} (st : EditorState C) (e : PEvent C)
    (h : StrokesNonempty st) : StrokesNonempty (step st e) := by
  obtain ⟨hlog, hcur⟩ := h
  cases e with
  | pointerDown p =>
      by_cases hd : st.drawEnabled <;>
        simp only [step, handlePointerDown, hd, if_true, if_false]
      · refine ⟨hlog, ?_⟩
        intro s hs
        cases hs
        simp
      · exact ⟨hlog, hcur⟩
  | pointerMove p =>
      rcases hc : st.currentStroke with _ | s0 <;>
        simp only [step, handlePointerMove, hc]
      · exact ⟨hlog, hcur⟩
      · refine ⟨hlog, ?_⟩
        intro s hs
        cases hs
        simp
  | pointerUp =>
      rcases hc : st.currentStroke with _ | s0 <;>
        simp only [step, handlePointerUp, hc]
      · exact ⟨hlog, hcur⟩
      · refine ⟨?_, by simp⟩
        intro s hs
        rcases List.mem_append.mp hs with h1 | h1
        · exact hlog s h1
        · rw [List.mem_singleton.mp h1]
          exact hcur s0 hc
  | undo =>
      refine ⟨?_, hcur⟩
      intro s hs
      exact hlog s (List.dropLast_subset _ hs)
  | clear => exact ⟨by simp [step, handleClearDraw], hcur⟩
  | toggleDraw => exact ⟨hlog, hcur⟩
  | toggleEraser => exact ⟨hlog, hcur⟩
  | setColor c => exact ⟨hlog, hcur⟩
  | setSize q => exact ⟨hlog, hcur⟩
  | setFilters fs => exact ⟨hlog, hcur⟩
  | uploadStart file =>
      rcases file with _ | url <;> simp only [step, handleImageUploadStart]
      · exact ⟨hlog, hcur⟩
      · exact ⟨hlog, hcur⟩
  | uploadLoad img => exact ⟨by simp [step, onImageLoad], hcur⟩
  | uploadError => exact ⟨hlog, hcur⟩
  | cropApply w h dpr enc =>
      rcases hc : st.completedCrop with _ | c <;>
        rcases hi : st.imageObject with _ | img <;>
          simp only [step, handleCropState, hc, hi]
      · exact ⟨hlog, hcur⟩
      · exact ⟨hlog, hcur⟩
      · exact ⟨hlog, hcur⟩
      · exact ⟨by simp, hcur⟩
  | rotate F enc =>
      rcases hi : st.imageObject with _ | img <;>
        rcases hu : st.imageUrl with _ | url <;>
          simp only [step, rotateState, hi, hu]
      · exact ⟨hlog, hcur⟩
      · exact ⟨hlog, hcur⟩
      · exact ⟨hlog, hcur⟩
      · exact ⟨by simp, hcur⟩
  | download w h =>
      rcases hi : st.imageObject with _ | img <;>
        rcases hu : st.imageUrl with _ | url <;>
          simp only [step, handleDownloadState, hi, hu]
      · exact ⟨hlog, hcur⟩
      · exact ⟨hlog, hcur⟩
      · exact ⟨hlog, hcur⟩
      · exact ⟨hlog, hcur⟩

/-- The stroke-log invariant holds along any event sequence. -/
theorem strokesNonempty_foldl {C : Type} (evs : List (PEvent C))
    (st : EditorState C) (h : StrokesNonempty st) :
    StrokesNonempty (evs.foldl step st) := by
  induction evs generalizing st with
  | nil => exact h
  | cons e tl ih => exact ih _ (strokesNonempty_step st e h)

/-- The invariant holds at mount time. -/
theorem strokesNonempty_initState (C : Type) :
    StrokesNonempty (initState C) := by
  refine ⟨?_, ?_⟩ <;> simp [initState]

/-- C9: along every event sequence from the initial state, every finalized
stroke in the log has at least one point (pointer-down seeds the in-progress
stroke with the capture point before any finalize can happen, and pointer-up
only finalizes an existing in-progress stroke), so the export loop's
`pts.length > 0` guard is satisfied by every captured stroke. -/
theorem c9_finalized_strokes_nonempty {C : Type} (evs : List (PEvent C))
    (s : Stroke) (hs : s ∈ (evs.foldl step (initState C)).strokes) :
    0 < s.points.length :=
  List.length_pos.mpr
    ((strokesNonempty_foldl evs (initState C) (strokesNonempty_initState C)).1
      s hs)

/-- Witness for C9: the stroke produced by enabling drawing, a pointer-down at
`(1, 2)` and a pointer-up has a positive point count. -/
theorem c9_finalized_strokes_nonempty_witness :
    0 < (⟨[⟨1, 2⟩], "#ff0000", 6, false⟩ : Stroke).points.length :=
  c9_finalized_strokes_nonempty
    ([.toggleDraw, .pointerDown ⟨1, 2⟩, .pointerUp] : List (PEvent ℕ))
    ⟨[⟨1, 2⟩], "#ff0000", 6, false⟩ (by decide)

end ReactPic
